import Mathlib

/-!
Shallow embedding of the chat client of this repository: the WebSocket
chat component in `App.tsx` (connection handling, message handlers,
submit), the `ChatInterface` component (send, receive, clear chat) and
the `useAuth` session manager (login/logout), together with proofs of
the specified connection, logging and session properties.
-/

/-- A conversation entry of the `App` component (`interface Message` in
App.tsx): message text, whether the user authored it, and the creation
time (`new Date()` modeled as an abstract tick). -/
structure Message where
  text : String
  isUser : Bool
  timestamp : Nat
deriving Repr, DecidableEq

/-- Lifecycle phase of a browser WebSocket object: created but not yet
open, open, or closed (a closed socket never reopens). -/
inductive SocketPhase
  | connecting
  | open_
  | closed
deriving Repr, DecidableEq

/-- The decoded fields of a JSON frame that the handlers read:
`data.response` (App.tsx), `data.message` and `data.timestamp`
(ChatInterface). JSON objects are open, so every field is optional. -/
structure WireData where
  response : Option String := none
  message : Option String := none
  timestamp : Option Nat := none
deriving Repr, DecidableEq

/-- A raw transport frame as delivered to `ws.onmessage`: either text
that `JSON.parse` accepts (represented by its decoded fields) or text
that `JSON.parse` rejects with a SyntaxError. -/
inductive Frame
  | json (d : WireData)
  | malformed (raw : String)
deriving Repr, DecidableEq

/-- The exception raised by `JSON.parse` on a malformed frame. -/
inductive DecodeErr
  | malformedFrame (raw : String)
deriving Repr, DecidableEq

/-- Models `JSON.parse(event.data)`: returns the decoded data or throws. -/
def parseFrame : Frame → Except DecodeErr WireData
  | Frame.json d => Except.ok d
  | Frame.malformed raw => Except.error (DecodeErr.malformedFrame raw)

/-- JavaScript truthiness of an optional string field: absent
(`undefined`) and the empty string are falsy. -/
def truthy : Option String → Bool
  | none => false
  | some s => s ≠ ""

/-- The React state of the `App` component in App.tsx: `messages`,
`input`, `isConnected`, `isLoading` (with their `useState` initial
values as defaults) and `wsRef.current` (`none` = null). -/
structure AppState where
  messages : List Message := []
  input : String := ""
  isConnected : Bool := false
  isLoading : Bool := false
  ws : Option SocketPhase := none
deriving Repr, DecidableEq

/-- The initial `App` state: the `useState` initializers, no socket. -/
def initialAppState : AppState := {}

/-- `addMessage(text, isUser)` of App.tsx: appends one entry with the
current time at the end of `messages`. -/
def addMessage (s : AppState) (text : String) (isUser : Bool) (now : Nat) : AppState :=
  { s with messages := s.messages ++ [⟨text, isUser, now⟩] }

/-- `connectWebSocket()` of App.tsx: creates a fresh socket (initially
in the connecting phase) and stores it in `wsRef.current`. -/
def connectWebSocket (s : AppState) : AppState :=
  { s with ws := some SocketPhase.connecting }

/-- The `ws.onopen` callback of App.tsx: the socket is now open and
`setIsConnected(true)` runs. -/
def ws_onopen (s : AppState) : AppState :=
  { s with ws := some SocketPhase.open_, isConnected := true }

/-- The `ws.onmessage` callback of App.tsx: `JSON.parse` the frame
(propagating its exception — there is no try/catch), append a bot
entry when `data.response` is truthy, then `setIsLoading(false)`. -/
def ws_onmessage (s : AppState) (f : Frame) (now : Nat) : Except DecodeErr AppState :=
  match parseFrame f with
  | Except.error e => Except.error e
  | Except.ok d =>
    let s1 := if truthy d.response then addMessage s (d.response.getD "") false now else s
    Except.ok { s1 with isLoading := false }

/-- The component state after the `onmessage` handler ran in the
browser: an uncaught exception aborts the handler, leaving the React
state exactly as it was. -/
def runOnMessage (s : AppState) (f : Frame) (now : Nat) : AppState :=
  match ws_onmessage s f now with
  | Except.ok s' => s'
  | Except.error _ => s

/-- The `ws.onclose` callback of App.tsx: `setIsConnected(false)` and
`setTimeout(connectWebSocket, 3000)`. The second component is the
delay, in milliseconds, of the scheduled reconnect timer. -/
def ws_onclose (s : AppState) : AppState × Nat :=
  ({ s with ws := some SocketPhase.closed, isConnected := false }, 3000)

/-- The `ws.onerror` callback of App.tsx: `setIsConnected(false)`. -/
def ws_onerror (s : AppState) : AppState :=
  { s with isConnected := false }

/-- The outbound payload `JSON.stringify({message, user_id})` sent by
`handleSubmit` of App.tsx. -/
structure OutboundPayload where
  message : String
  user_id : String
deriving Repr, DecidableEq

/-- `handleSubmit` of App.tsx: if the trimmed input is empty, no socket
object exists, or the client is not connected, return with no effect;
otherwise append the user entry, send `{message, user_id}` over the
socket, clear the input and set the loading flag. -/
def handleSubmit (s : AppState) (now : Nat) : AppState × Option OutboundPayload :=
  if s.input.trim = "" ∨ s.ws = none ∨ s.isConnected = false then (s, none)
  else
    let s1 := addMessage s s.input true now
    ({ s1 with input := "", isLoading := true }, some ⟨s.input, "default"⟩)

/-- The connection states of the specification's Connection State
Machine realised by the `App` component, read off the code state:
`isConnected = true` is Connected; a socket created by
`connectWebSocket` but not yet opened is Connecting; otherwise
Disconnected. -/
inductive ConnState
  | Disconnected
  | Connecting
  | Connected
deriving Repr, DecidableEq

/-- Abstraction map from the `App` component state to the
specification's connection state (refinement view for the
state-machine claims). -/
def connView (s : AppState) : ConnState :=
  if s.isConnected then ConnState.Connected
  else if s.ws = some SocketPhase.connecting then ConnState.Connecting
  else ConnState.Disconnected

/-- The events that drive the `App` component: a `connectWebSocket`
call (mount or reconnect timer), the socket callbacks, and a form
submit. -/
inductive Event
  | connect
  | open_
  | message (f : Frame) (now : Nat)
  | close
  | error
  | submit (now : Nat)
deriving Repr, DecidableEq

/-- When an event can fire: `onopen` only on the pending socket,
`onmessage` only on an open socket, `onclose` on a socket that is not
already closed, `onerror` on an existing socket. The component keeps at
most one non-closed socket: each `connectWebSocket` call after the
first is triggered by the `onclose` of the previous socket. -/
def eventEnabled (s : AppState) : Event → Bool
  | Event.connect => true
  | Event.open_ => decide (s.ws = some SocketPhase.connecting)
  | Event.message _ _ => decide (s.ws = some SocketPhase.open_)
  | Event.close => decide (s.ws = some SocketPhase.connecting ∨ s.ws = some SocketPhase.open_)
  | Event.error => decide (s.ws ≠ none)
  | Event.submit _ => true

/-- The step function induced by `connectWebSocket` and its socket
callbacks: one event handler runs to completion on the current state. -/
def step (s : AppState) : Event → AppState
  | Event.connect => connectWebSocket s
  | Event.open_ => ws_onopen s
  | Event.message f now => runOnMessage s f now
  | Event.close => (ws_onclose s).1
  | Event.error => ws_onerror s
  | Event.submit now => (handleSubmit s now).1

/-- The backoff delay prescribed by the spec before retry number
`retry`: min(baseDelay * 2 ^ retry, maxDelay), in milliseconds. -/
def specBackoffBase (baseDelay maxDelay retry : Nat) : Nat :=
  min (baseDelay * 2 ^ retry) maxDelay

/-- Written from the spec's words (refinement target): a scheduled
delay conforms to the spec's backoff policy when it is within 20
percent of `specBackoffBase`. -/
def specBackoffOk (baseDelay maxDelay retry delay : Nat) : Prop :=
  8 * specBackoffBase baseDelay maxDelay retry ≤ 10 * delay ∧
    10 * delay ≤ 12 * specBackoffBase baseDelay maxDelay retry

instance (baseDelay maxDelay retry delay : Nat) :
    Decidable (specBackoffOk baseDelay maxDelay retry delay) :=
  inferInstanceAs (Decidable (_ ∧ _))

/-- A conversation entry of the `ChatInterface` component in Login.tsx
(`interface Message` there): `id` is `Date.now().toString()`,
`content` is `data.message` for received frames (absent fields give
`undefined`, modeled as `none`), and `timestamp` is the entry's date
(`none` for the invalid date produced from a missing field). -/
structure CIMessage where
  id : String
  content : Option String
  isUser : Bool
  timestamp : Option Nat
deriving Repr, DecidableEq

/-- The React state of the `ChatInterface` component: `messages`,
`input`, `isLoading` (with their `useState` initial values as
defaults) and the `socket` state variable. -/
structure CIState where
  messages : List CIMessage := []
  input : String := ""
  isLoading : Bool := false
  socket : Option SocketPhase := none
deriving Repr, DecidableEq

/-- The `ws.onmessage` callback of ChatInterface: `JSON.parse` the
frame (no try/catch), unconditionally append a bot entry built from
`data.message` and `data.timestamp`, then `setIsLoading(false)`. -/
def ci_onmessage (s : CIState) (f : Frame) (now : Nat) :
    Except DecodeErr CIState :=
  match parseFrame f with
  | Except.error e => Except.error e
  | Except.ok d =>
    Except.ok { s with
      messages := s.messages ++ [⟨toString now, d.message, false, d.timestamp⟩],
      isLoading := false }

/-- The `ChatInterface` state after its `onmessage` handler ran in the
browser: an uncaught exception leaves the React state as it was. -/
def runCiOnMessage (s : CIState) (f : Frame) (now : Nat) : CIState :=
  match ci_onmessage s f now with
  | Except.ok s' => s'
  | Except.error _ => s

/-- `handleSend` of ChatInterface: if the trimmed input is empty, no
socket exists, or a request is in flight, return with no effect;
otherwise append the user entry, clear the input, set the loading flag
and send `{text}` (if `socket.send` throws, the catch clause resets
the loading flag; the entry stays appended). `sendOk` tells whether
the send succeeded. -/
def handleSend (s : CIState) (now : Nat) (sendOk : Bool) :
    CIState × Option String :=
  if s.input.trim = "" ∨ s.socket = none ∨ s.isLoading = true then (s, none)
  else
    let s1 : CIState :=
      { s with
        messages := s.messages ++ [⟨toString now, some s.input, true, some now⟩],
        input := "",
        isLoading := true }
    if sendOk then (s1, some s.input)
    else ({ s1 with isLoading := false }, none)

/-- `handleClearChat` of ChatInterface: `setMessages([])`. -/
def handleClearChat (s : CIState) : CIState :=
  { s with messages := [] }

/-- The authenticated user profile as in the `useAuth` tests
(`username`, `email`, `full_name`). -/
structure UserT where
  username : String
  email : String
  full_name : String
deriving Repr, DecidableEq

/-- Session-manager error taxonomy from the spec: `InvalidCredentials`,
`NetworkUnavailable`, `ServerError`. -/
inductive LoginError
  | invalidCredentials
  | networkUnavailable
  | serverError
deriving Repr, DecidableEq

/-- The session-manager state of the `useAuth` hook, as observed by its
tests: in-memory `user` and `token`, the durable-storage token
(`localStorage.getItem('token')`), the `isLoading` flag and the last
`error`. -/
structure AuthState where
  user : Option UserT := none
  token : Option String := none
  storageToken : Option String := none
  isLoading : Bool := false
  error : Option LoginError := none
deriving Repr, DecidableEq

/-- Modelled from the spec: `logout()` of the `useAuth` hook (Session
Manager), whose implementation is not in the repository snapshot (only
its tests are). Per the spec it synchronously clears SessionCredentials
from memory and from durable storage, and nothing else. -/
def logout (s : AuthState) : AuthState :=
  { s with user := none, token := none, storageToken := none }

/-- Modelled from the spec: `login(username, password)` of the
`useAuth` hook (Session Manager), whose implementation is not in the
repository snapshot (only its tests are). The backend exchange is an
external collaborator, so its outcome is passed in: on success the
token and identity are stored in memory and durable storage; on
failure the taxonomized error is recorded and re-raised and no
credential field is written. -/
def login (s : AuthState) (outcome : Except LoginError (String × UserT)) :
    AuthState × Option LoginError :=
  match outcome with
  | Except.ok (tok, u) =>
      ({ s with user := some u, token := some tok, storageToken := some tok,
                isLoading := false, error := none }, none)
  | Except.error e =>
      ({ s with isLoading := false, error := some e }, some e)

/-- A full client session for the frame-effect claims: the
`ChatInterface` component state together with the `useAuth` session
state it is mounted under. -/
structure SessionState where
  chat : CIState
  auth : AuthState
deriving Repr, DecidableEq

/-- `handleClearChat` lifted to the session: the handler only calls
`setMessages`, so only the chat component state is touched. -/
def sessionClearChat (s : SessionState) : SessionState :=
  { s with chat := handleClearChat s.chat }

/-- The list of states visited while the events fire in order,
starting state included. -/
def execStates (s : AppState) : List Event → List AppState
  | [] => [s]
  | e :: es => s :: execStates (step s e) es

/-- Whether every event of the list is enabled in the state it fires
in. -/
def enabledRun (s : AppState) : List Event → Bool
  | [] => true
  | e :: es => eventEnabled s e && enabledRun (step s e) es

/-- The state after all events fired in order. -/
def finalState (s : AppState) (es : List Event) : AppState :=
  es.foldl step s

theorem connView_runOnMessage (s : AppState) (f : Frame) (now : Nat) :
    connView (runOnMessage s f now) = connView s := by
  cases f with
  | malformed raw => rfl
  | json d =>
    by_cases h : truthy d.response <;>
      simp [runOnMessage, ws_onmessage, parseFrame, h, addMessage, connView]

theorem connView_handleSubmit (s : AppState) (now : Nat) :
    connView (handleSubmit s now).1 = connView s := by
  by_cases h : s.input.trim = "" ∨ s.ws = none ∨ s.isConnected = false <;>
    simp [handleSubmit, h, addMessage, connView]

theorem stepConnectedPre (s : AppState) (e : Event)
    (hen : eventEnabled s e = true)
    (hpost : connView (step s e) = ConnState.Connected) :
    connView s = ConnState.Connecting ∨ connView s = ConnState.Connected := by
  cases e with
  | connect =>
    by_cases hc : s.isConnected
    · exact Or.inr (by simp [connView, hc])
    · exact absurd hpost (by simp [step, connectWebSocket, connView, hc])
  | open_ =>
    have hws : s.ws = some SocketPhase.connecting := of_decide_eq_true hen
    by_cases hc : s.isConnected
    · exact Or.inr (by simp [connView, hc])
    · exact Or.inl (by simp [connView, hc, hws])
  | message f now =>
    rw [step, connView_runOnMessage] at hpost
    exact Or.inr hpost
  | close =>
    exact absurd hpost (by simp [step, ws_onclose, connView])
  | error =>
    refine absurd hpost ?_
    simp only [step, ws_onerror, connView]
    split
    · simp_all
    · split <;> simp
  | submit now =>
    rw [step, connView_handleSubmit] at hpost
    exact Or.inr hpost

/-- C1: for every sequence of enabled transport/user events, the
connection state never skips directly from Disconnected to Connected:
if a run starts with the connection view Disconnected and ends with it
Connected, some visited state of the run has the view Connecting. -/
theorem connectedOnlyViaConnecting (s : AppState) (es : List Event)
    (hrun : enabledRun s es = true)
    (hpre : connView s = ConnState.Disconnected)
    (hpost : connView (finalState s es) = ConnState.Connected) :
    ConnState.Connecting ∈ (execStates s es).map connView := by
  induction es generalizing s with
  | nil =>
    rw [show finalState s [] = s from rfl, hpre] at hpost
    exact absurd hpost (by simp)
  | cons e es ih =>
    have hen : eventEnabled s e = true := by
      have := hrun
      simp only [enabledRun, Bool.and_eq_true] at this
      exact this.1
    have hrun' : enabledRun (step s e) es = true := by
      have := hrun
      simp only [enabledRun, Bool.and_eq_true] at this
      exact this.2
    have hfin : finalState s (e :: es) = finalState (step s e) es := rfl
    rw [hfin] at hpost
    rcases hv : connView (step s e) with _ | _ | _
    · have hmem := ih (step s e) hrun' hv hpost
      simp only [execStates, List.map, List.mem_cons]
      right
      simpa [execStates] using hmem
    · simp only [execStates, List.map, List.mem_cons]
      right
      cases es with
      | nil => simp [execStates, hv]
      | cons e' es' => simp [execStates, hv]
    · rcases stepConnectedPre s e hen hv with h | h
      · rw [hpre] at h
        exact absurd h (by simp)
      · rw [hpre] at h
        exact absurd h (by simp)

/-- Witness for C1: the run connect-then-open from the initial
(Disconnected) state ends Connected and indeed visits Connecting. -/
theorem connectedOnlyViaConnectingWitness :
    enabledRun initialAppState [Event.connect, Event.open_] = true ∧
      connView initialAppState = ConnState.Disconnected ∧
      connView (finalState initialAppState [Event.connect, Event.open_]) =
        ConnState.Connected ∧
      ConnState.Connecting ∈
        (execStates initialAppState [Event.connect, Event.open_]).map connView :=
  ⟨by decide, by decide, by decide,
    connectedOnlyViaConnecting initialAppState [Event.connect, Event.open_]
      (by decide) (by decide) (by decide)⟩

/-- C2 counterexample: after an unexpected close the code schedules
the reconnect after exactly 3000 ms, which is not within the spec's
jitter window around min(1000 * 2 ^ 0, 30000) = 1000 ms (the window
allowed for retryCount = 0 with the default configuration). -/
theorem reconnectDelayNotSpecBackoffCex :
    (ws_onclose initialAppState).2 = 3000 ∧
      ¬ specBackoffOk 1000 30000 0 3000 :=
  ⟨rfl, by decide⟩

/-- C2 amended: the `onclose` handler always schedules the reconnect
after a fixed 3000 ms delay — independent of the state, with no retry
counter, no exponential growth and no jitter — and records the
disconnection. -/
theorem reconnectDelayFixed3000 (s : AppState) :
    (ws_onclose s).2 = 3000 ∧ (ws_onclose s).1.isConnected = false :=
  ⟨rfl, rfl⟩

/-- C3 counterexample: delivering the identical frame (`response`
"hi") twice to the `App` message handler appends two identical
entries, not one — the duplicate is not discarded, so the second
delivery does not leave the log unchanged. -/
theorem duplicateEnvelopeAppendedTwiceCex :
    (runOnMessage
        (runOnMessage initialAppState (Frame.json { response := some "hi" }) 0)
        (Frame.json { response := some "hi" }) 0).messages =
      [⟨"hi", false, 0⟩, ⟨"hi", false, 0⟩] := by
  decide

/-- C3 amended: the client performs no de-duplication — the log keeps
no origin id or delivery state, and any frame whose `response` field
is a nonempty string is appended at the end of the log no matter what
the log already contains, so a replayed envelope produces a second
entry. -/
theorem onmessageAlwaysAppendsNoDedup (s : AppState) (r : String) (now : Nat)
    (h : r ≠ "") :
    (runOnMessage s (Frame.json { response := some r }) now).messages =
      s.messages ++ [⟨r, false, now⟩] := by
  simp [runOnMessage, ws_onmessage, parseFrame, truthy, h, addMessage]

/-- Witness for C3 amended: the nonempty reply "hi" is appended to the
empty log. -/
theorem onmessageAlwaysAppendsNoDedupWitness :
    ("hi" : String) ≠ "" ∧
      (runOnMessage initialAppState (Frame.json { response := some "hi" }) 0).messages =
        initialAppState.messages ++ [⟨"hi", false, 0⟩] :=
  ⟨by decide, onmessageAlwaysAppendsNoDedup initialAppState "hi" 0 (by decide)⟩

/-- C4 counterexample: on a frame that is not well-formed JSON the
`App` message handler exits with the `JSON.parse` exception (there is
no try/catch), rather than returning any state — it does not yield a
dropped-frame result. -/
theorem malformedFrameThrowsCex :
    ws_onmessage initialAppState (Frame.malformed "oops") 0 =
      Except.error (DecodeErr.malformedFrame "oops") ∧
      (ws_onmessage initialAppState (Frame.malformed "oops") 0).toOption = none :=
  ⟨rfl, rfl⟩

/-- C4 amended: a malformed frame makes `JSON.parse` throw inside both
message handlers (`App` and `ChatInterface`); the exception is not
caught, the frame produces no log entry, and the component state
visible after the aborted handler is exactly the state before — in
particular the loading flag is not cleared. -/
theorem malformedFrameUncaught (s : AppState) (c : CIState) (raw : String) (now : Nat) :
    ws_onmessage s (Frame.malformed raw) now =
        Except.error (DecodeErr.malformedFrame raw) ∧
      runOnMessage s (Frame.malformed raw) now = s ∧
      ci_onmessage c (Frame.malformed raw) now =
        Except.error (DecodeErr.malformedFrame raw) ∧
      runCiOnMessage c (Frame.malformed raw) now = c :=
  ⟨rfl, rfl, rfl, rfl⟩

/-- C5 counterexample: submitting the nonempty input "hello" while
Disconnected (no socket, `isConnected` false) changes nothing: no
entry is created, no payload is sent or queued — the send is rejected
immediately. -/
theorem sendWhileDisconnectedRejectedCex :
    handleSubmit { input := "hello" } 5 = ({ input := "hello" }, none) := by
  simp [handleSubmit]

/-- C5 amended: a submit while the client is not connected is rejected
immediately: the state (log included) is unchanged and nothing is sent
or buffered — there is no pending-send buffer, no delivery state, and
no later reconciliation in the code. -/
theorem sendWhileDisconnectedRejected (s : AppState) (now : Nat)
    (h : s.isConnected = false) :
    handleSubmit s now = (s, none) := by
  simp [handleSubmit, h]

/-- Witness for C5 amended: the disconnected state with input "hello"
is returned unchanged. -/
theorem sendWhileDisconnectedRejectedWitness :
    (({ input := "hello" } : AppState)).isConnected = false ∧
      handleSubmit { input := "hello" } 5 = ({ input := "hello" }, none) :=
  ⟨rfl, sendWhileDisconnectedRejected { input := "hello" } 5 rfl⟩

/-- C6: clearing the chat empties the conversation log in one step and
changes nothing else: the socket, the whole session-manager state
(credentials included) and the remaining component fields are exactly
as before. -/
theorem clearChatOnlyEmptiesLog (s : SessionState) :
    (sessionClearChat s).chat.messages = [] ∧
      (sessionClearChat s).chat.socket = s.chat.socket ∧
      (sessionClearChat s).auth = s.auth ∧
      (sessionClearChat s).chat.input = s.chat.input ∧
      (sessionClearChat s).chat.isLoading = s.chat.isLoading :=
  ⟨rfl, rfl, rfl, rfl, rfl⟩

/-- C7: `logout()` is idempotent — after one call the in-memory user
and token and the durable-storage token are all absent, the call
always completes (it is a total function, so the second call raises no
error), and a second call returns the state unchanged. -/
theorem logoutIdempotent (s : AuthState) :
    (logout s).user = none ∧ (logout s).token = none ∧
      (logout s).storageToken = none ∧ logout (logout s) = logout s :=
  ⟨rfl, rfl, rfl, rfl⟩

/-- C8: every failing `login` resolves to one of the three taxonomized
errors, and stores no partial session state: when no credentials were
present before the call, the in-memory user and token and the
durable-storage token are still absent after the failure. -/
theorem loginFailureTaxonomyNoPartialState (s : AuthState) (e : LoginError)
    (h : s.user = none ∧ s.token = none ∧ s.storageToken = none) :
    (login s (Except.error e)).2 = some e ∧
      (e = LoginError.invalidCredentials ∨ e = LoginError.networkUnavailable ∨
        e = LoginError.serverError) ∧
      (login s (Except.error e)).1.user = none ∧
      (login s (Except.error e)).1.token = none ∧
      (login s (Except.error e)).1.storageToken = none := by
  obtain ⟨h1, h2, h3⟩ := h
  refine ⟨rfl, ?_, h1, h2, h3⟩
  cases e
  · exact Or.inl rfl
  · exact Or.inr (Or.inl rfl)
  · exact Or.inr (Or.inr rfl)

/-- Witness for C8: a failing login with `invalidCredentials` from the
fresh session state reports that error and leaves all credential
fields absent. -/
theorem loginFailureTaxonomyNoPartialStateWitness :
    (({} : AuthState).user = none ∧ ({} : AuthState).token = none ∧
        ({} : AuthState).storageToken = none) ∧
      ((login {} (Except.error LoginError.invalidCredentials)).2 =
          some LoginError.invalidCredentials ∧
        (LoginError.invalidCredentials = LoginError.invalidCredentials ∨
          LoginError.invalidCredentials = LoginError.networkUnavailable ∨
          LoginError.invalidCredentials = LoginError.serverError) ∧
        (login {} (Except.error LoginError.invalidCredentials)).1.user = none ∧
        (login {} (Except.error LoginError.invalidCredentials)).1.token = none ∧
        (login {} (Except.error LoginError.invalidCredentials)).1.storageToken = none) :=
  ⟨⟨rfl, rfl, rfl⟩,
    loginFailureTaxonomyNoPartialState {} LoginError.invalidCredentials
      ⟨rfl, rfl, rfl⟩⟩

/-- C9: a well-formed frame whose `response` field is not truthy
(absent or the empty string) appends nothing to the log, yet the
handler still clears the loading flag and changes nothing else. -/
theorem frameWithoutResponseClearsLoading (s : AppState) (d : WireData) (now : Nat)
    (h : truthy d.response = false) :
    ws_onmessage s (Frame.json d) now = Except.ok { s with isLoading := false } := by
  simp [ws_onmessage, parseFrame, h]

/-- Witness for C9: a frame with no `response` field, received while
loading, yields the same state with the loading flag cleared. -/
theorem frameWithoutResponseClearsLoadingWitness :
    truthy ({} : WireData).response = false ∧
      ws_onmessage { isLoading := true } (Frame.json {}) 0 =
        Except.ok ({ isLoading := false } : AppState) :=
  ⟨rfl, frameWithoutResponseClearsLoading { isLoading := true } {} 0 rfl⟩

/-- C10 counterexample: receiving a well-formed frame with no
`response` field in a state whose log holds one entry leaves the log
exactly equal to the old one, so the old log is not a strict prefix of
the new log after this non-clear operation. -/
theorem logUnchangedNotStrictExtensionCex :
    (runOnMessage { messages := [⟨"x", true, 0⟩], isLoading := true }
        (Frame.json {}) 1).messages = [(⟨"x", true, 0⟩ : Message)] ∧
      ¬ ([(⟨"x", true, 0⟩ : Message)] <+:
          (runOnMessage { messages := [⟨"x", true, 0⟩], isLoading := true }
            (Frame.json {}) 1).messages ∧
        [(⟨"x", true, 0⟩ : Message)] ≠
          (runOnMessage { messages := [⟨"x", true, 0⟩], isLoading := true }
            (Frame.json {}) 1).messages) :=
  ⟨by decide, fun hc => hc.2 (by decide)⟩

/-- C10 amended: the conversation log is append-only except for clear:
each of the four send/receive handlers (App submit and receive,
ChatInterface send and receive) either leaves the log unchanged or
appends exactly one entry at its end, so the previous entries, their
contents and their order are preserved and the old log is a prefix —
not always strict — of the new one. -/
theorem conversationLogAppendOnly (s : AppState) (c : CIState) (f : Frame)
    (now : Nat) (sendOk : Bool) :
    ((runOnMessage s f now).messages = s.messages ∨
      ∃ m, (runOnMessage s f now).messages = s.messages ++ [m]) ∧
    (((handleSubmit s now).1).messages = s.messages ∨
      ∃ m, ((handleSubmit s now).1).messages = s.messages ++ [m]) ∧
    ((runCiOnMessage c f now).messages = c.messages ∨
      ∃ m, (runCiOnMessage c f now).messages = c.messages ++ [m]) ∧
    (((handleSend c now sendOk).1).messages = c.messages ∨
      ∃ m, ((handleSend c now sendOk).1).messages = c.messages ++ [m]) := by
  refine ⟨?_, ?_, ?_, ?_⟩
  · cases f with
    | malformed raw => exact Or.inl rfl
    | json d =>
      by_cases h : truthy d.response
      · exact Or.inr ⟨⟨d.response.getD "", false, now⟩,
          by simp [runOnMessage, ws_onmessage, parseFrame, h, addMessage]⟩
      · exact Or.inl (by simp [runOnMessage, ws_onmessage, parseFrame, h])
  · by_cases h : s.input.trim = "" ∨ s.ws = none ∨ s.isConnected = false
    · exact Or.inl (by simp [handleSubmit, h])
    · exact Or.inr ⟨⟨s.input, true, now⟩, by simp [handleSubmit, h, addMessage]⟩
  · cases f with
    | malformed raw => exact Or.inl rfl
    | json d => exact Or.inr ⟨⟨toString now, d.message, false, d.timestamp⟩, rfl⟩
  · by_cases h : c.input.trim = "" ∨ c.socket = none ∨ c.isLoading = true
    · exact Or.inl (by simp [handleSend, h])
    · cases sendOk with
      | true =>
        exact Or.inr ⟨⟨toString now, some c.input, true, some now⟩,
          by simp [handleSend, h]⟩
      | false =>
        exact Or.inr ⟨⟨toString now, some c.input, true, some now⟩,
          by simp [handleSend, h]⟩
